import Mathlib

/-!
Shallow embedding of the lotto-auto-bot automation engine
(dhlottery login / lotto 6-45 purchase / pension-720 purchase).

Browser and network effects are modelled by explicit oracle values:
each external call (HTTP response, DOM read, in-page function result)
is a field of an environment record, and the TypeScript control flow is
translated into pure Lean functions over those records.  Throwing is
modelled with `Except String`, a thrown value of `undefined` with
`Option`.  Polling loops, which in the source are bounded by wall-clock
timeouts, are modelled over the finite list of states observed at the
poll ticks; an exhausted list is the timeout.
-/

namespace LottoBot

/-! ### Character-level string helpers

Kernel-reducible models of the JavaScript string primitives used by the
source (`trim`, `toUpperCase`, `includes`, `startsWith`, `\d{6}` test).
-/

/-- `needle.isPrefixOf hay` on character lists. -/
def listStarts : List Char → List Char → Bool
  | [], _ => true
  | _ :: _, [] => false
  | a :: as, b :: bs => a = b && listStarts as bs

/-- JavaScript `hay.includes(needle)` on character lists. -/
def listHasSub (needle : List Char) : List Char → Bool
  | [] => listStarts needle []
  | c :: rest => listStarts needle (c :: rest) || listHasSub needle rest

/-- JavaScript `s.includes(needle)`. -/
def strHasSub (needle s : String) : Bool :=
  listHasSub needle.data s.data

/-- JavaScript `s.trim()` (whitespace at both ends removed). -/
def strTrim (s : String) : String :=
  ⟨((s.data.dropWhile Char.isWhitespace).reverse.dropWhile Char.isWhitespace).reverse⟩

/-- JavaScript `s.toUpperCase()` (ASCII model). -/
def strUpper (s : String) : String :=
  ⟨s.data.map Char.toUpper⟩

/-- JavaScript `s.startsWith(p)`. -/
def strStarts (p s : String) : Bool :=
  listStarts p.data s.data

/-- The regular-expression test `/^\d{6}$/.test s`. -/
def isSixDigits (s : String) : Bool :=
  s.data.length = 6 && s.data.all Char.isDigit

/-! ### RetryExecutor — `withRetries` (src/lotto/auth.ts and the lotto645 module)

```ts
async function withRetries<T>(action, maxRetries, retryDelayMs) {
  let currentError: unknown;
  for (let attempt = 1; attempt <= maxRetries; attempt += 1) {
    try { return await action(); }
    catch (error) { currentError = error; if (attempt < maxRetries) await sleep(retryDelayMs); }
  }
  throw currentError;
}
```

The action is modelled as a function of the (1-based) attempt number.
The trace records the returned/thrown value, how many times the action
was invoked, and the duration of every `sleep` performed, in order.
`Except (Option E) A` is the outcome: `.error none` is the re-raise of
the still-`undefined` `currentError`.
-/

structure RetryTrace (E A : Type) where
  result : Except (Option E) A
  calls : Nat
  sleeps : List Nat

/-- Loop of `withRetries`: `remaining` counts the attempts still allowed
(`remaining = maxRetries - attempt + 1`), so the `attempt < maxRetries`
guard on the sleep is `remaining ≠ 1` at entry. -/
def withRetriesGo (action : Nat → Except E A) (delayMs : Nat) :
    Nat → Nat → Option E → Nat → List Nat → RetryTrace E A
  | _, 0, err, calls, sleeps => ⟨.error err, calls, sleeps⟩
  | attempt, remaining + 1, _, calls, sleeps =>
    match action attempt with
    | .ok v => ⟨.ok v, calls + 1, sleeps⟩
    | .error e =>
      withRetriesGo action delayMs (attempt + 1) remaining (some e) (calls + 1)
        (if remaining = 0 then sleeps else sleeps ++ [delayMs])

/-- `withRetries(action, maxRetries, retryDelayMs)`.  `maxRetries` keeps the
source's `number` type as `Int`, so non-positive values are expressible. -/
def withRetries (action : Nat → Except E A) (maxRetries : Int) (delayMs : Nat) :
    RetryTrace E A :=
  withRetriesGo action delayMs 1 maxRetries.toNat none 0 []

end LottoBot

namespace LottoBot

/-- C3 helper fact: a successful first step of the loop. -/
theorem withRetriesGo_ok {action : Nat → Except E A} {d attempt r err calls sleeps v}
    (h : action attempt = .ok v) :
    withRetriesGo action d attempt (r + 1) err calls sleeps =
      ⟨.ok v, calls + 1, sleeps⟩ := by
  simp [withRetriesGo, h]

/-- C3 helper fact: a failing step of the loop with retries remaining. -/
theorem withRetriesGo_err {action : Nat → Except E A} {d attempt r err calls sleeps e}
    (h : action attempt = .error e) :
    withRetriesGo action d attempt (r + 1) err calls sleeps =
      withRetriesGo action d (attempt + 1) r (some e) (calls + 1)
        (if r = 0 then sleeps else sleeps ++ [d]) := by
  simp [withRetriesGo, h]

/-- **C3.** An action that fails on its first two invocations and succeeds on
the third, run under `withRetries` with `maxAttempts = 3`, returns the third
invocation's success value, is invoked exactly 3 times, and exactly two
sleeps of the fixed configured duration happen (no backoff growth). -/
theorem withRetries_two_failures_then_success
    {E A : Type} (action : Nat → Except E A) (e₁ e₂ : E) (v : A) (d : Nat)
    (h1 : action 1 = .error e₁) (h2 : action 2 = .error e₂)
    (h3 : action 3 = .ok v) :
    withRetries action 3 d = ⟨.ok v, 3, [d, d]⟩ := by
  have : ((3 : Int)).toNat = 3 := rfl
  rw [withRetries, this]
  rw [show (3 : Nat) = 2 + 1 from rfl, withRetriesGo_err h1]
  rw [show (2 : Nat) = 1 + 1 from rfl, withRetriesGo_err h2]
  rw [show (1 : Nat) = 0 + 1 from rfl, withRetriesGo_ok h3]
  simp

/-- Witness for C3 at a concrete action. -/
theorem withRetries_two_failures_then_success_witness :
    withRetries
        (fun attempt => if attempt < 3 then (.error "boom") else (.ok 42))
        3 2000 =
      ⟨.ok (42 : Nat), 3, [2000, 2000]⟩ :=
  withRetries_two_failures_then_success
    (fun attempt => if attempt < 3 then (.error "boom") else (.ok 42))
    "boom" "boom" 42 2000 rfl rfl rfl

/-- **C10.** With `maxAttempts ≤ 0` the attempt loop body is never entered:
the action is called zero times, no sleep happens, and the still-undefined
`currentError` (modelled `none`) is thrown. -/
theorem withRetries_nonpositive {E A : Type} (action : Nat → Except E A)
    (maxRetries : Int) (d : Nat) (h : maxRetries ≤ 0) :
    withRetries action maxRetries d = ⟨.error none, 0, []⟩ := by
  rw [withRetries, Int.toNat_of_nonpos h]
  rfl

/-- Witness for C10 at `maxAttempts = 0`. -/
theorem withRetries_nonpositive_witness :
    withRetries (fun _ => (.ok (7 : Nat) : Except String Nat)) 0 500 =
      ⟨.error none, 0, []⟩ :=
  withRetries_nonpositive (fun _ => (.ok 7 : Except String Nat)) 0 500 (by decide)

/-! ### Lotto 6/45 fixed-parameter purchase (the lotto645 module)

`lottoSlots` and `buildAutoPickParam` are taken verbatim; the JSON
serialisation step of `buildAutoPickParam` is modelled by returning the
entry list itself. -/

/-- `export const lottoSlots = ["A", "B", "C", "D", "E"]`. -/
def lottoSlots : List String := ["A", "B", "C", "D", "E"]

/-- One element of the `param` payload:
`{ genType: "0", arrGameChoiceNum: null, alpabet: slot }`. -/
structure AutoPickEntry where
  genType : String
  arrGameChoiceNum : Option (List Nat)
  alpabet : String
  deriving Repr, DecidableEq

/-- `buildAutoPickParam(gameCount)`: one auto-pick entry per requested
ticket, using the first `gameCount` slots. -/
def buildAutoPickParam (gameCount : Nat) : List AutoPickEntry :=
  (lottoSlots.take gameCount).map fun slot =>
    { genType := "0", arrGameChoiceNum := none, alpabet := slot }

/-- The `execBuy.do` response shape (`BuyLottoResponse` in types.ts). -/
structure BuyLottoResponse where
  loginYn : Option String
  resultCode : Option String
  resultMsg : Option String
  deriving Repr, DecidableEq

/-- The acceptance check at the tail of `buyLotto645Auto`:

```ts
const loginResult = payload.loginYn === "Y";
const resultMessage = String(payload.result?.resultMsg ?? "").toUpperCase();
if (!loginResult || resultMessage !== "SUCCESS") {
  throw new Error(`Lotto purchase failed. response=${JSON.stringify(payload)}`);
}
return payload;
```

The thrown error carries the raw payload: the error value is the pair of
the message prefix and the whole payload record. -/
def buyLotto645Accept (payload : BuyLottoResponse) :
    Except (String × BuyLottoResponse) BuyLottoResponse :=
  let loginResult := payload.loginYn = some "Y"
  let resultMessage := strUpper (payload.resultMsg.getD "")
  if loginResult ∧ resultMessage = "SUCCESS" then .ok payload
  else .error ("Lotto purchase failed. response=", payload)

/-- **C7.** For every `N ∈ [1,5]` the submission parameter list has exactly
`N` entries, their slot identifiers are exactly the first `N` elements of
`A, B, C, D, E` in that order, and each entry is an auto pick (`genType`
`"0"`) with no chosen numbers. -/
theorem buildAutoPickParam_spec (N : Nat) (h1 : 1 ≤ N) (h5 : N ≤ 5) :
    (buildAutoPickParam N).length = N ∧
      (buildAutoPickParam N).map AutoPickEntry.alpabet = lottoSlots.take N ∧
      ∀ e ∈ buildAutoPickParam N, e.genType = "0" ∧ e.arrGameChoiceNum = none := by
  interval_cases N <;> refine ⟨rfl, rfl, ?_⟩ <;> decide

/-- Witness for C7 at `N = 3`. -/
theorem buildAutoPickParam_spec_witness :
    (buildAutoPickParam 3).length = 3 ∧
      (buildAutoPickParam 3).map AutoPickEntry.alpabet = lottoSlots.take 3 ∧
      ∀ e ∈ buildAutoPickParam 3, e.genType = "0" ∧ e.arrGameChoiceNum = none :=
  buildAutoPickParam_spec 3 (by decide) (by decide)

/-- **C2.** `buyLotto645Auto` accepts the submission response exactly when
`loginYn` is `"Y"` and the result message uppercases to `"SUCCESS"`; every
other combination of the two fields is an error that carries the raw
response payload. -/
theorem buyLotto645Accept_spec (payload : BuyLottoResponse) :
    (buyLotto645Accept payload = .ok payload ↔
      payload.loginYn = some "Y" ∧ strUpper (payload.resultMsg.getD "") = "SUCCESS") ∧
    (¬ (payload.loginYn = some "Y" ∧
          strUpper (payload.resultMsg.getD "") = "SUCCESS") →
      buyLotto645Accept payload = .error ("Lotto purchase failed. response=", payload)) := by
  constructor
  · constructor
    · intro h
      by_contra hc
      simp [buyLotto645Accept, hc] at h
    · intro h
      simp [buyLotto645Accept, h.1, h.2]
  · intro h
    simp [buyLotto645Accept, h]

/-- Witness for C2: a response with `loginYn = "N"` and a lowercase success
message is rejected with the payload attached. -/
theorem buyLotto645Accept_spec_witness :
    buyLotto645Accept ⟨some "N", some "100", some "success"⟩ =
      .error ("Lotto purchase failed. response=",
        (⟨some "N", some "100", some "success"⟩ : BuyLottoResponse)) :=
  (buyLotto645Accept_spec ⟨some "N", some "100", some "success"⟩).2 (by decide)

/-! ### Cookie normalization — `normalizeAuthCookies` (auth.ts)

```ts
const cookies = await context.cookies();
const targetCookieNames = new Set(["JSESSIONID", "DHJSESSIONID", "WMONID"]);
const normalizedCookies = cookies
  .filter((cookie) => targetCookieNames.has(cookie.name))
  .map((cookie) => ({ ...cookie, domain: ".dhlottery.co.kr", path: "/" }));
if (normalizedCookies.length > 0) { await context.addCookies(normalizedCookies); }
```

The browser cookie jar is a list of cookies; `addCookies` replaces any
cookie with the same (name, domain, path) key and appends the rest. -/

structure Cookie where
  name : String
  value : String
  domain : String
  path : String
  deriving Repr, DecidableEq

/-- The fixed session-cookie name set. -/
def targetCookieNames : List String := ["JSESSIONID", "DHJSESSIONID", "WMONID"]

/-- Identity of a cookie inside the jar. -/
def cookieKey (c : Cookie) : String × String × String := (c.name, c.domain, c.path)

/-- `context.addCookies(added)` over a jar snapshot. -/
def addCookies (jar added : List Cookie) : List Cookie :=
  jar.filter (fun c => ¬ added.any fun a => cookieKey a = cookieKey c) ++ added

/-- The reissued session cookies computed by `normalizeAuthCookies`. -/
def normalizedCookies (jar : List Cookie) : List Cookie :=
  (jar.filter fun c => targetCookieNames.contains c.name).map fun c =>
    { c with domain := ".dhlottery.co.kr", path := "/" }

/-- `normalizeAuthCookies`: reissue the session cookies into the jar
(no-op when none of them is present). -/
def normalizeAuthCookies (jar : List Cookie) : List Cookie :=
  let normalized := normalizedCookies jar
  if 0 < normalized.length then addCookies jar normalized else jar

/-- **C5.** Normalization reissues only cookies named in the fixed session
set — each reissued cookie keeps the name and value of a jar cookie and gets
domain `.dhlottery.co.kr`, path `/` — and every jar cookie with any other
name is still present afterwards with its original name, value, domain and
path. -/
theorem normalizeAuthCookies_spec (jar : List Cookie) :
    (∀ c ∈ normalizedCookies jar,
        targetCookieNames.contains c.name ∧
        c.domain = ".dhlottery.co.kr" ∧ c.path = "/" ∧
        ∃ o ∈ jar, o.name = c.name ∧ o.value = c.value) ∧
    (∀ c ∈ jar, ¬ targetCookieNames.contains c.name = true →
        c ∈ normalizeAuthCookies jar) := by
  constructor
  · intro c hc
    simp only [normalizedCookies, List.mem_map, List.mem_filter] at hc
    obtain ⟨o, ⟨ho, hname⟩, rfl⟩ := hc
    exact ⟨hname, rfl, rfl, o, ho, rfl, rfl⟩
  · intro c hc hname
    unfold normalizeAuthCookies
    by_cases hlen : 0 < (normalizedCookies jar).length
    · simp only [hlen, if_true, addCookies, List.mem_append]
      left
      rw [List.mem_filter]
      refine ⟨hc, ?_⟩
      simp only [decide_eq_true_eq, List.any_eq_true, not_exists, not_and]
      intro a ha
      simp only [normalizedCookies, List.mem_map, List.mem_filter] at ha
      obtain ⟨o, ⟨_, honame⟩, rfl⟩ := ha
      intro hkey
      apply hname
      have : o.name = c.name := congrArg Prod.fst hkey
      rw [← this]
      exact honame
    · simp [hlen, hc]

/-- Witness for C5: a jar with one session cookie and one unrelated cookie;
the unrelated cookie survives normalization untouched. -/
theorem normalizeAuthCookies_spec_witness :
    (⟨"theme", "dark", "www.dhlottery.co.kr", "/game"⟩ : Cookie) ∈
      normalizeAuthCookies
        [⟨"JSESSIONID", "abc", "www.dhlottery.co.kr", "/"⟩,
         ⟨"theme", "dark", "www.dhlottery.co.kr", "/game"⟩] :=
  (normalizeAuthCookies_spec
      [⟨"JSESSIONID", "abc", "www.dhlottery.co.kr", "/"⟩,
       ⟨"theme", "dark", "www.dhlottery.co.kr", "/game"⟩]).2
    ⟨"theme", "dark", "www.dhlottery.co.kr", "/game"⟩
    (by simp) (by decide)

/-! ### Pension-720 frame discovery — scoring and selection

From `inspectPension720Signals` / `waitForPension720GameFrame` (the
pension720 module with URL fallbacks).  A frame is reduced to its
observable signals: its URL and the three control counts. -/

/-- `isLikelyPension720Url`: `/LP72/i || /pension720/i || /totalgame/i`. -/
def isLikelyPension720Url (url : String) : Bool :=
  strHasSub "lp72" (⟨url.data.map Char.toLower⟩ : String) ||
    strHasSub "pension720" (⟨url.data.map Char.toLower⟩ : String) ||
    strHasSub "totalgame" (⟨url.data.map Char.toLower⟩ : String)

/-- The signals gathered from one candidate frame. -/
structure PensionFrameSignal where
  url : String
  buyCntCount : Nat
  autoButtonCount : Nat
  orderNoCount : Nat
  deriving Repr, DecidableEq

/-- The score computed by `inspectPension720Signals`: +4 URL pattern,
+10 quantity input, +10 auto-select trigger, +2 order-number anchor. -/
def signalScore (s : PensionFrameSignal) : Nat :=
  (if isLikelyPension720Url s.url then 4 else 0) +
    (if 0 < s.buyCntCount then 10 else 0) +
    (if 0 < s.autoButtonCount then 10 else 0) +
    (if 0 < s.orderNoCount then 2 else 0)

/-- The strict qualification filter of `waitForPension720GameFrame`:
`buyCntCount > 0 || autoButtonCount > 0 || score >= 14`. -/
def isStrictCandidate (s : PensionFrameSignal) : Bool :=
  decide (0 < s.buyCntCount) || decide (0 < s.autoButtonCount) ||
    decide (14 ≤ signalScore s)

/-- The candidate set of one poll tick: strict candidates, else the
relaxed `score >= 4` filter. -/
def pensionCandidates (signals : List PensionFrameSignal) : List PensionFrameSignal :=
  let strict := signals.filter isStrictCandidate
  if strict.isEmpty then signals.filter (fun s => decide (4 ≤ signalScore s)) else strict

/-- Keep the earlier candidate `s` unless the best of the rest strictly
beats it (stability of the source's descending sort). -/
def betterSignal (s : PensionFrameSignal) : Option PensionFrameSignal → PensionFrameSignal
  | none => s
  | some t => if signalScore s < signalScore t then t else s

/-- `candidates.sort((a, b) => b.score - a.score)` followed by
`candidates[0]`: the stable descending sort's head is the first element
of maximal score. -/
def pickBestSignal : List PensionFrameSignal → Option PensionFrameSignal
  | [] => none
  | s :: rest => some (betterSignal s (pickBestSignal rest))

/-- One poll tick of `waitForPension720GameFrame`: the selected frame,
if any candidate qualifies. -/
def selectPensionFrame (signals : List PensionFrameSignal) : Option PensionFrameSignal :=
  pickBestSignal (pensionCandidates signals)

/-- `pickBestSignal` succeeds on any nonempty list. -/
theorem pickBestSignal_isSome : ∀ {l : List PensionFrameSignal}, l ≠ [] →
    ∃ s, pickBestSignal l = some s
  | [], h => absurd rfl h
  | a :: rest, _ => ⟨betterSignal a (pickBestSignal rest), rfl⟩

/-- `pickBestSignal` returns an element of the list. -/
theorem pickBestSignal_mem : ∀ {l : List PensionFrameSignal} {s},
    pickBestSignal l = some s → s ∈ l
  | [], _, h => by simp [pickBestSignal] at h
  | a :: rest, s, h => by
    rw [pickBestSignal] at h
    cases hr : pickBestSignal rest with
    | none =>
      rw [hr] at h
      simp only [betterSignal] at h
      injection h with h
      subst h
      exact List.mem_cons_self a rest
    | some t =>
      rw [hr] at h
      simp only [betterSignal] at h
      by_cases hlt : signalScore a < signalScore t
      · rw [if_pos hlt] at h
        injection h with h
        subst h
        exact List.mem_cons_of_mem a (pickBestSignal_mem hr)
      · rw [if_neg hlt] at h
        injection h with h
        subst h
        exact List.mem_cons_self a rest

/-- `pickBestSignal` returns an element of maximal score. -/
theorem pickBestSignal_maximal : ∀ {l : List PensionFrameSignal} {s},
    pickBestSignal l = some s → ∀ t ∈ l, signalScore t ≤ signalScore s
  | [], _, _ => by intro t ht; cases ht
  | a :: rest, s, h => by
    intro t ht
    rw [pickBestSignal] at h
    cases hr : pickBestSignal rest with
    | none =>
      rw [hr] at h
      simp only [betterSignal] at h
      injection h with h
      subst h
      rcases List.mem_cons.mp ht with rfl | htr
      · exact le_refl _
      · obtain ⟨u, hu⟩ := pickBestSignal_isSome (List.ne_nil_of_mem htr)
        rw [hu] at hr
        cases hr
    | some u =>
      rw [hr] at h
      simp only [betterSignal] at h
      have hmax := pickBestSignal_maximal hr
      by_cases hlt : signalScore a < signalScore u
      · rw [if_pos hlt] at h
        injection h with h
        subst h
        rcases List.mem_cons.mp ht with rfl | htr
        · exact le_of_lt hlt
        · exact hmax t htr
      · rw [if_neg hlt] at h
        injection h with h
        subst h
        rcases List.mem_cons.mp ht with rfl | htr
        · exact le_refl _
        · exact le_trans (hmax t htr) (le_of_not_lt hlt)

/-- **C6.** Scoring is monotonic in the primary quantity/control signal:
with every other signal identical, a candidate exposing the quantity input
scores at least as much as one lacking it; and whenever the qualification
filter is nonempty, discovery selects a candidate of maximal score among
the qualifying candidates. -/
theorem pensionFrame_scoring_and_selection :
    (∀ s t : PensionFrameSignal, s.url = t.url →
        s.autoButtonCount = t.autoButtonCount → s.orderNoCount = t.orderNoCount →
        0 < s.buyCntCount → t.buyCntCount = 0 →
        signalScore t ≤ signalScore s) ∧
    (∀ signals : List PensionFrameSignal, pensionCandidates signals ≠ [] →
        ∃ c, selectPensionFrame signals = some c ∧ c ∈ pensionCandidates signals ∧
          ∀ t ∈ pensionCandidates signals, signalScore t ≤ signalScore c) := by
  constructor
  · intro s t hurl hauto horder hs ht
    simp only [signalScore, hurl, hauto, horder, hs, ht]
    simp
  · intro signals hne
    obtain ⟨c, hc⟩ := pickBestSignal_isSome hne
    exact ⟨c, hc, pickBestSignal_mem hc, pickBestSignal_maximal hc⟩

/-- Witness for C6 at two concrete candidate frames. -/
theorem pensionFrame_scoring_and_selection_witness :
    signalScore ⟨"about:blank", 0, 1, 0⟩ ≤ signalScore ⟨"about:blank", 1, 1, 0⟩ ∧
      ∃ c, selectPensionFrame [⟨"about:blank", 1, 1, 0⟩] = some c ∧
        c ∈ pensionCandidates [⟨"about:blank", 1, 1, 0⟩] ∧
        ∀ t ∈ pensionCandidates [⟨"about:blank", 1, 1, 0⟩],
          signalScore t ≤ signalScore c :=
  ⟨pensionFrame_scoring_and_selection.1 ⟨"about:blank", 1, 1, 0⟩ ⟨"about:blank", 0, 1, 0⟩
      rfl rfl rfl (by decide) rfl,
    pensionFrame_scoring_and_selection.2 [⟨"about:blank", 1, 1, 0⟩] (by decide)⟩

/-! ### Pension-720 accumulating purchase — `buyPension720Auto`

The in-surface `data` object observed at each poll tick of
`requestAutoLotNo`, and the per-iteration oracle for the accumulate loop.
Navigation/discovery, which C1 and C8 do not concern, is abstracted to
whether a game frame was found and ready. -/

/-- One observation of the global `data` result object. -/
structure AutoState where
  resultCode : String
  resultMsg : String
  selLotNo : String
  deriving Repr, DecidableEq

/-- `requestAutoLotNo`: poll `data` until the success code `"100"` together
with a six-digit number appears; a present non-`"100"` code is an
immediate error; an exhausted poll budget is the timeout error. -/
def requestAutoLotNo : List AutoState → Except String String
  | [] => .error "Timed out while requesting pension auto number."
  | st :: rest =>
    if st.resultCode ≠ "" ∧ st.resultCode ≠ "100" then
      .error ("Pension720 auto number request failed. code=" ++ st.resultCode ++
        " msg=" ++ st.resultMsg)
    else if st.resultCode = "100" ∧ isSixDigits st.selLotNo then .ok st.selLotNo
    else requestAutoLotNo rest

/-- `waitForBuyCountAtLeast`: poll the `BUY_CNT` input (each read is
`none` when the input vanished) until it reaches `minimumCount`. -/
def waitForBuyCountAtLeast : List (Option Nat) → Nat → Except String Nat
  | [], _ => .error "Timed out while waiting selected pension numbers."
  | none :: _, _ => .error "Pension720 buy count input is no longer available."
  | some c :: rest, minimumCount =>
    if minimumCount ≤ c then .ok c else waitForBuyCountAtLeast rest minimumCount

/-- `waitForSelectedNumberAppeared`: poll the rendered text for the
appended number. -/
def waitForSelectedNumberAppeared : List Bool → Except String Unit
  | [] => .error "Timed out while waiting selected number to appear."
  | b :: rest => if b then .ok () else waitForSelectedNumberAppeared rest

/-- `waitForOrderNo`: poll the order-number anchor text; `none` on
timeout rather than an error. -/
def waitForOrderNo : List (Option String) → Option String
  | [] => none
  | t :: rest =>
    let normalized := strTrim (t.getD "")
    if 0 < normalized.length then some normalized else waitForOrderNo rest

/-- The fixed failure-keyword set of `hasHardFailureDialog`. -/
def failKeywords : List String :=
  ["실패", "오류", "불가", "해제", "중지", "점검", "제한", "부족", "로그인"]

/-- `hasHardFailureDialog`: the first non-blank captured dialog message
containing a failure keyword. -/
def hasHardFailureDialog : List String → Option String
  | [] => none
  | m :: rest =>
    let normalized := strTrim m
    if normalized = "" then hasHardFailureDialog rest
    else if failKeywords.any (fun k => strHasSub k normalized) then some normalized
    else hasHardFailureDialog rest

/-- Oracle for one iteration of the accumulate loop. -/
structure PensionIterEnv where
  beforeCount : Option Nat
  autoPolls : List AutoState
  appendAvailable : Bool
  countPolls : List (Option Nat)
  appearPolls : List Bool

/-- `BuyPension720Response` from types.ts. -/
structure BuyPension720Response where
  requestedGameCount : Nat
  selectedGameCount : Nat
  orderNo : Option String
  deriving Repr, DecidableEq

/-- Oracle for one whole `buyPension720Auto` run. -/
structure PensionEnv where
  gameCount : Int
  frameFound : Bool
  frameReady : Bool
  canReadBuyCount : Bool
  iter : Nat → PensionIterEnv
  finalRead : Option Nat
  dialogs : List String
  orderNoPolls : List (Option String)

/-- The body of one accumulate-loop iteration: request an auto number,
append it, then confirm the selection count grew (via the `BUY_CNT` input
when readable, else via the rendered text, bumping the running counter). -/
def pensionIterStep (it : PensionIterEnv) (canRead : Bool) (selected : Nat) :
    Except String Nat :=
  match requestAutoLotNo it.autoPolls with
  | .error e => .error e
  | .ok _ =>
    if it.appendAvailable = false then .error "Pension720 addBuyDataOne is not available."
    else if canRead then
      waitForBuyCountAtLeast it.countPolls
        ((if canRead then it.beforeCount else none).getD 0 + 1)
    else
      match waitForSelectedNumberAppeared it.appearPolls with
      | .error e => .error e
      | .ok _ => .ok (selected + 1)

/-- The accumulate loop, `gameCount` iterations, threading the running
selection counter. -/
def pensionLoop (env : Nat → PensionIterEnv) (canRead : Bool) :
    Nat → Nat → Nat → Except String Nat
  | _, 0, selected => .ok selected
  | i, n + 1, selected =>
    match pensionIterStep (env i) canRead selected with
    | .error e => .error e
    | .ok next => pensionLoop env canRead (i + 1) n next

/-- The final `selectedGameCount` after the loop: re-read from `BUY_CNT`
when readable (keeping the loop's counter if the read is `null`), else the
loop's counter. -/
def finalSelectedCount (canRead : Bool) (finalRead : Option Nat) (loopSelected : Nat) : Nat :=
  if canRead then finalRead.getD loopSelected else loopSelected

/-- `buyPension720Auto`.  The `Bool` of the result records whether the
submit trigger `doOrderRequest` was invoked during the run. -/
def buyPension720Run (env : PensionEnv) :
    Except String BuyPension720Response × Bool :=
  if env.gameCount < 1 ∨ 5 < env.gameCount then
    (.error "PENSION_COUNT must be an integer between 1 and 5.", false)
  else if env.frameFound = false then
    (.error "Pension720 game frame not found after all fallback steps.", false)
  else if env.frameReady = false then
    (.error "Pension720 game frame is not ready: missing expected controls.", false)
  else
    match pensionLoop env.iter env.canReadBuyCount 0 env.gameCount.toNat 0 with
    | .error e => (.error e, false)
    | .ok loopSelected =>
      if finalSelectedCount env.canReadBuyCount env.finalRead loopSelected <
          env.gameCount.toNat then
        (.error "Pension720 selected count is smaller than requested.", false)
      else
        match hasHardFailureDialog env.dialogs with
        | some msg => (.error ("Pension720 purchase failed: " ++ msg), true)
        | none =>
          (.ok ⟨env.gameCount.toNat,
            finalSelectedCount env.canReadBuyCount env.finalRead loopSelected,
            waitForOrderNo env.orderNoPolls⟩, true)

/-- A failing auto-number request fails the iteration with the same error. -/
theorem pensionIterStep_request_err {it : PensionIterEnv} {canRead : Bool}
    {selected : Nat} {e : String}
    (hreq : requestAutoLotNo it.autoPolls = .error e) :
    pensionIterStep it canRead selected = .error e := by
  simp [pensionIterStep, hreq]

/-- A fully successful iteration under a readable `BUY_CNT` input. -/
theorem pensionIterStep_read_ok {it : PensionIterEnv} {canRead : Bool}
    {l : String} {n : Nat}
    (hreq : requestAutoLotNo it.autoPolls = .ok l)
    (happ : it.appendAvailable = true)
    (hcanRead : canRead = true)
    (hcnt : waitForBuyCountAtLeast it.countPolls (it.beforeCount.getD 0 + 1) = .ok n)
    (selected : Nat) :
    pensionIterStep it canRead selected = .ok n := by
  subst hcanRead
  simp [pensionIterStep, hreq, happ, hcnt]

/-- A present result code other than `"100"` at the first poll tick is an
immediate request error. -/
theorem requestAutoLotNo_fail_head {st : AutoState} {rest : List AutoState}
    (h1 : st.resultCode ≠ "") (h2 : st.resultCode ≠ "100") :
    requestAutoLotNo (st :: rest) =
      .error ("Pension720 auto number request failed. code=" ++ st.resultCode ++
        " msg=" ++ st.resultMsg) := by
  simp [requestAutoLotNo, h1, h2]

/-- A successful iteration advances the loop. -/
theorem pensionLoop_succ_ok {env : Nat → PensionIterEnv} {canRead : Bool}
    {i n selected next : Nat}
    (h : pensionIterStep (env i) canRead selected = .ok next) :
    pensionLoop env canRead i (n + 1) selected =
      pensionLoop env canRead (i + 1) n next := by
  simp [pensionLoop, h]

/-- A failing iteration fails the whole loop with the same error. -/
theorem pensionLoop_succ_err {env : Nat → PensionIterEnv} {canRead : Bool}
    {i n selected : Nat} {e : String}
    (h : pensionIterStep (env i) canRead selected = .error e) :
    pensionLoop env canRead i (n + 1) selected = .error e := by
  simp [pensionLoop, h]

/-- **C1.** Whenever `buyPension720Auto` returns a result (rather than
raising), the requested count was within `[1,5]`, the result's requested
count is that count, and its confirmed selection count is at least the
requested count: a short-count result is never returned. -/
theorem buyPension720_never_short (env : PensionEnv) (resp : BuyPension720Response)
    (inv : Bool) (h : buyPension720Run env = (.ok resp, inv)) :
    1 ≤ env.gameCount ∧ env.gameCount ≤ 5 ∧
      resp.requestedGameCount = env.gameCount.toNat ∧
      resp.requestedGameCount ≤ resp.selectedGameCount := by
  unfold buyPension720Run at h
  split at h
  next => simp at h
  next hrange =>
    split at h
    next => simp at h
    next =>
      split at h
      next => simp at h
      next =>
        split at h
        next e heq => simp at h
        next loopSelected heq =>
          split at h
          next hshort => simp at h
          next hshort =>
            split at h
            next msg hdlg => simp at h
            next hdlg =>
              simp only [Prod.mk.injEq, Except.ok.injEq] at h
              obtain ⟨hresp, -⟩ := h
              subst hresp
              exact ⟨by omega, by omega, rfl, Nat.le_of_not_lt hshort⟩

/-- An iteration oracle on which every step succeeds with one selection. -/
def goodPensionIter : PensionIterEnv :=
  { beforeCount := some 0
    autoPolls := [⟨"100", "", "123456"⟩]
    appendAvailable := true
    countPolls := [some 1]
    appearPolls := [true] }

/-- A one-ticket run on which every external interaction succeeds. -/
def happyPensionEnv : PensionEnv :=
  { gameCount := 1
    frameFound := true
    frameReady := true
    canReadBuyCount := true
    iter := fun _ => goodPensionIter
    finalRead := some 1
    dialogs := []
    orderNoPolls := [] }

/-- Witness for C1 on the one-ticket happy run. -/
theorem buyPension720_never_short_witness :
    1 ≤ happyPensionEnv.gameCount ∧ happyPensionEnv.gameCount ≤ 5 ∧
      (⟨1, 1, none⟩ : BuyPension720Response).requestedGameCount =
        happyPensionEnv.gameCount.toNat ∧
      (⟨1, 1, none⟩ : BuyPension720Response).requestedGameCount ≤
        (⟨1, 1, none⟩ : BuyPension720Response).selectedGameCount :=
  buyPension720_never_short happyPensionEnv ⟨1, 1, none⟩ true rfl

/-- **C8.** In a two-ticket accumulating purchase whose first iteration
succeeds, if the second auto-number request observes a result code that is
present and differs from the success code `"100"`, the run raises that
request's error and the submit trigger `doOrderRequest` is never invoked. -/
theorem buyPension720_secondRequestFails_noSubmit
    (env : PensionEnv) (st : AutoState) (rest : List AutoState)
    (l₀ : String) (n₀ : Nat)
    (hcount : env.gameCount = 2)
    (hfound : env.frameFound = true) (hready : env.frameReady = true)
    (hread : env.canReadBuyCount = true)
    (hreq0 : requestAutoLotNo (env.iter 0).autoPolls = .ok l₀)
    (happ0 : (env.iter 0).appendAvailable = true)
    (hcnt0 : waitForBuyCountAtLeast (env.iter 0).countPolls
        ((env.iter 0).beforeCount.getD 0 + 1) = .ok n₀)
    (hpolls : (env.iter 1).autoPolls = st :: rest)
    (hc1 : st.resultCode ≠ "") (hc2 : st.resultCode ≠ "100") :
    buyPension720Run env =
      (.error ("Pension720 auto number request failed. code=" ++ st.resultCode ++
        " msg=" ++ st.resultMsg), false) := by
  have hreq1 : requestAutoLotNo (env.iter 1).autoPolls =
      .error ("Pension720 auto number request failed. code=" ++ st.resultCode ++
        " msg=" ++ st.resultMsg) := by
    rw [hpolls]
    exact requestAutoLotNo_fail_head hc1 hc2
  have hstep0 : pensionIterStep (env.iter 0) env.canReadBuyCount 0 = .ok n₀ :=
    pensionIterStep_read_ok hreq0 happ0 hread hcnt0 0
  have hstep1 : pensionIterStep (env.iter 1) env.canReadBuyCount n₀ =
      .error ("Pension720 auto number request failed. code=" ++ st.resultCode ++
        " msg=" ++ st.resultMsg) :=
    pensionIterStep_request_err hreq1
  have hloop : pensionLoop env.iter env.canReadBuyCount 0 env.gameCount.toNat 0 =
      .error ("Pension720 auto number request failed. code=" ++ st.resultCode ++
        " msg=" ++ st.resultMsg) := by
    rw [show env.gameCount.toNat = 1 + 1 by rw [hcount]; rfl]
    rw [pensionLoop_succ_ok hstep0, pensionLoop_succ_err hstep1]
  have hgc : ¬ (env.gameCount < 1 ∨ 5 < env.gameCount) := by rw [hcount]; decide
  have hf : ¬ (env.frameFound = false) := by rw [hfound]; decide
  have hr : ¬ (env.frameReady = false) := by rw [hready]; decide
  unfold buyPension720Run
  rw [if_neg hgc, if_neg hf, if_neg hr, hloop]

/-- The second-iteration oracle whose auto-number request reports the
failure code 300. -/
def badPensionIter : PensionIterEnv :=
  { beforeCount := some 1
    autoPolls := [⟨"300", "ERROR", ""⟩]
    appendAvailable := true
    countPolls := [some 2]
    appearPolls := [true] }

/-- A two-ticket run whose second auto-number request fails. -/
def secondFailPensionEnv : PensionEnv :=
  { gameCount := 2
    frameFound := true
    frameReady := true
    canReadBuyCount := true
    iter := fun i => if i = 0 then goodPensionIter else badPensionIter
    finalRead := some 2
    dialogs := []
    orderNoPolls := [] }

/-- Witness for C8 on the concrete two-ticket run. -/
theorem buyPension720_secondRequestFails_noSubmit_witness :
    buyPension720Run secondFailPensionEnv =
      (.error ("Pension720 auto number request failed. code=" ++ "300" ++
        " msg=" ++ "ERROR"), false) :=
  buyPension720_secondRequestFails_noSubmit secondFailPensionEnv
    ⟨"300", "ERROR", ""⟩ [] "123456" 1 rfl rfl rfl rfl rfl rfl rfl rfl
    (by decide) (by decide)

/-! ### Exhausted retries

A helper shared by the login and balance-probe theorems: with every
attempt failing with the same error, `withRetries` performs exactly
`maxRetries` calls and `maxRetries - 1` fixed-length sleeps, and
re-raises that error. -/

theorem withRetriesGo_const_fail {E A : Type} {action : Nat → Except E A} {e : E} {d : Nat}
    (h : ∀ i, action i = .error e) :
    ∀ (r : Nat), 0 < r → ∀ (attempt : Nat) (err : Option E) (calls : Nat) (sleeps : List Nat),
      withRetriesGo action d attempt r err calls sleeps =
        ⟨.error (some e), calls + r, sleeps ++ List.replicate (r - 1) d⟩
  | 0, hr => absurd hr (by decide)
  | 1, _ => fun attempt err calls sleeps => by
    rw [show (1 : Nat) = 0 + 1 from rfl, withRetriesGo_err (h attempt)]
    simp [withRetriesGo]
  | r + 2, _ => fun attempt err calls sleeps => by
    rw [withRetriesGo_err (h attempt), if_neg (Nat.succ_ne_zero r),
      withRetriesGo_const_fail h (r + 1) (Nat.succ_pos r) (attempt + 1) (some e)
        (calls + 1) (sleeps ++ [d])]
    simp only [RetryTrace.mk.injEq]
    refine ⟨trivial, by omega, ?_⟩
    simp [List.replicate_succ, List.append_assoc]

theorem withRetries_const_fail {E A : Type} {action : Nat → Except E A} {e : E}
    (h : ∀ i, action i = .error e) (m : Int) (hm : 1 ≤ m) (d : Nat) :
    withRetries action m d =
      ⟨.error (some e), m.toNat, List.replicate (m.toNat - 1) d⟩ := by
  unfold withRetries
  rw [withRetriesGo_const_fail h m.toNat (by omega) 1 none 0 []]
  simp

/-! ### Login — `getRsaKey` and `submitLogin` (auth.ts)

The RSA encryption itself (`rsaEncryptToHex`) cannot fail in the source
path modelled here and is not needed by the claims, so the attempt model
goes from the key fetch straight to the login-check response.  The
response's embedded error-message scan is modelled by the captured group
(`none` when the pattern is absent). -/

/-- The `selectRsaModulus.do` response: HTTP outcome plus the four places
the key material may sit (`data.rsaModulus ?? rsaModulus`, likewise for
the exponent). -/
structure RsaKeyResponse where
  ok : Bool
  status : Nat
  dataRsaModulus : Option String
  dataPublicExponent : Option String
  rsaModulus : Option String
  publicExponent : Option String

/-- `getRsaKey`: non-OK status is an error; missing (or empty, i.e. falsy)
modulus or exponent is the fatal missing-key-material error; otherwise the
pair is returned.  No retry happens inside this function. -/
def getRsaKey (r : RsaKeyResponse) : Except String (String × String) :=
  if r.ok = false then
    .error ("RSA modulus request failed. status=" ++ toString r.status)
  else
    let modulus := (r.dataRsaModulus.orElse fun _ => r.rsaModulus).getD ""
    let exponent := (r.dataPublicExponent.orElse fun _ => r.publicExponent).getD ""
    if modulus = "" ∨ exponent = "" then
      .error "RSA modulus/publicExponent not found in response."
    else .ok (modulus, exponent)

/-- The `securityLoginCheck.do` response: HTTP outcome and the captured
group of the embedded `errorMessage` pattern. -/
structure LoginCheckResponse where
  ok : Bool
  status : Nat
  errorMessage : Option String

/-- The credential-mismatch marker searched for in the embedded error. -/
def mismatchText : String := "아이디 또는 비밀번호"

/-- Oracle for one login attempt. -/
structure LoginAttemptEnv where
  rsa : RsaKeyResponse
  login : LoginCheckResponse
  fallback : Except String Unit

/-- One attempt of `submitLogin`'s retried action: fetch the RSA key,
post the login, scan the body; a mismatch message diverts to the
page-flow fallback, any other non-empty message is fatal. -/
def submitLoginAttempt (a : LoginAttemptEnv) : Except String Unit :=
  match getRsaKey a.rsa with
  | .error e => .error e
  | .ok _ =>
    if a.login.ok = false then
      .error ("securityLoginCheck failed. status=" ++ toString a.login.status)
    else
      match a.login.errorMessage with
      | some msg =>
        if msg = "" then .ok ()
        else if strHasSub mismatchText msg then a.fallback
        else .error ("Login failed: " ++ msg)
      | none => .ok ()

/-- The login retry policy: `withRetries(..., 5, 2000)`. -/
def loginMaxAttempts : Int := 5

/-- The login inter-attempt delay (ms). -/
def loginRetryDelayMs : Nat := 2000

/-- `submitLogin`: the whole attempt, key fetch included, runs inside the
5-attempt retry executor. -/
def submitLogin (env : Nat → LoginAttemptEnv) : RetryTrace String Unit :=
  withRetries (fun attempt => submitLoginAttempt (env attempt))
    loginMaxAttempts loginRetryDelayMs

/-- A key response that is HTTP-OK but carries no key material at all. -/
def missingKeyRsa : RsaKeyResponse :=
  { ok := true, status := 200, dataRsaModulus := none, dataPublicExponent := none,
    rsaModulus := none, publicExponent := none }

/-- A run on which every attempt's key endpoint returns no key material. -/
def missingKeyLoginEnv : Nat → LoginAttemptEnv := fun _ =>
  { rsa := missingKeyRsa, login := { ok := true, status := 200, errorMessage := none },
    fallback := .ok () }

/-- Counterexample to C4 as stated: with the key endpoint persistently
answering without key material, the missing-key-material error is raised on
the first attempt, yet the login action is invoked 5 times — further login
attempts are made after the error, because the key fetch runs inside the
login's retry wrapper. -/
theorem submitLogin_missingKey_counterexample :
    (submitLogin missingKeyLoginEnv).calls = 5 ∧
      (submitLogin missingKeyLoginEnv).result =
        .error (some "RSA modulus/publicExponent not found in response.") :=
  ⟨rfl, rfl⟩

/-- **C4 (amended).** Missing key material makes `getRsaKey` raise the
fatal missing-key error with no retry of its own, but the error is raised
inside the login's retry wrapper: with the key material persistently
missing, exactly 5 whole-login attempts are made, 4 delays of the login
policy's 2000 ms happen, and the error finally re-raised is the
missing-key-material error unchanged. -/
theorem submitLogin_missingKey_retriedFiveTimes (env : Nat → LoginAttemptEnv)
    (hmissing : ∀ i, getRsaKey (env i).rsa =
      .error "RSA modulus/publicExponent not found in response.") :
    submitLogin env =
      ⟨.error (some "RSA modulus/publicExponent not found in response."), 5,
        List.replicate 4 2000⟩ := by
  have hatt : ∀ i, submitLoginAttempt (env i) =
      .error "RSA modulus/publicExponent not found in response." := fun i => by
    simp [submitLoginAttempt, hmissing i]
  unfold submitLogin
  rw [withRetries_const_fail hatt loginMaxAttempts (by decide) loginRetryDelayMs]
  rfl

/-- Witness for the amended C4 on the all-missing run. -/
theorem submitLogin_missingKey_retriedFiveTimes_witness :
    submitLogin missingKeyLoginEnv =
      ⟨.error (some "RSA modulus/publicExponent not found in response."), 5,
        List.replicate 4 2000⟩ :=
  submitLogin_missingKey_retriedFiveTimes missingKeyLoginEnv (fun _ => rfl)

/-! ### Balance-validation probe — `getUserBalance` (auth.ts)

The probe has its own 3-attempt loop with a 1000 ms inter-attempt sleep;
after exhaustion the last error is classified: a message containing `401`
becomes the unauthorized (authentication) failure, anything else the
generic transient failure.  JSON amount extraction/locale formatting of
the success value is outside the claims; the success value is the trimmed
body. -/

/-- Oracle for one probe attempt. -/
structure BalanceAttemptEnv where
  ok : Bool
  status : Nat
  body : String

/-- One attempt of the probe: status checks, then the empty-body and
HTML-body invalid-session checks. -/
def balanceAttempt (a : BalanceAttemptEnv) : Except String String :=
  if a.ok = false then
    if a.status = 401 then .error "Balance check unauthorized (401)."
    else .error ("Balance check request failed. status=" ++ toString a.status)
  else
    if strTrim a.body = "" then .error "Balance check returned an empty response."
    else if strStarts "<" (strTrim a.body) then
      .error "Balance check returned HTML. Login session may be invalid."
    else .ok (strTrim a.body)

/-- The probe retry policy: 3 attempts. -/
def balanceMaxAttempts : Int := 3

/-- The probe inter-attempt delay (ms). -/
def balanceRetryDelayMs : Nat := 1000

/-- The final authentication-classified message of the probe. -/
def unauthorizedFinalMessage : String :=
  "Balance check unauthorized (401). 로그인 세션이 만들어지지 않았거나, 실행 환경 접근이 차단된 상태일 수 있습니다."

/-- `getUserBalance`: the retried probe plus the final classification of
the last captured error. -/
def getUserBalanceRun (env : Nat → BalanceAttemptEnv) :
    Except String String × Nat × List Nat :=
  let t := withRetries (fun i => balanceAttempt (env i))
    balanceMaxAttempts balanceRetryDelayMs
  match t.result with
  | .ok v => (.ok v, t.calls, t.sleeps)
  | .error err =>
    let msg := match err with | some m => m | none => "undefined"
    if strHasSub "401" msg then (.error unauthorizedFinalMessage, t.calls, t.sleeps)
    else (.error ("Balance check failed after retries: " ++ msg), t.calls, t.sleeps)

/-- **C9.** A persistent 401 surfaces, after the probe's own bounded policy
of 3 attempts with two 1000 ms delays, as the unauthorized classification;
a persistent 500 surfaces after the same policy as the generic retried
failure; the two classifications differ; and the probe policy is strictly
smaller and shorter-delayed than the login's 5-attempt / 2000 ms policy. -/
theorem getUserBalance_classification :
    (∀ env : Nat → BalanceAttemptEnv,
      (∀ i, (env i).ok = false ∧ (env i).status = 401) →
      getUserBalanceRun env = (.error unauthorizedFinalMessage, 3, [1000, 1000])) ∧
    (∀ env : Nat → BalanceAttemptEnv,
      (∀ i, (env i).ok = false ∧ (env i).status = 500) →
      getUserBalanceRun env =
        (.error ("Balance check failed after retries: " ++
          ("Balance check request failed. status=" ++ toString (500 : Nat))), 3,
          [1000, 1000])) ∧
    unauthorizedFinalMessage ≠
      "Balance check failed after retries: " ++
        ("Balance check request failed. status=" ++ toString (500 : Nat)) ∧
    balanceMaxAttempts < loginMaxAttempts ∧ balanceRetryDelayMs < loginRetryDelayMs := by
  refine ⟨?_, ?_, by decide, by decide, by decide⟩
  · intro env h
    have hatt : ∀ i, balanceAttempt (env i) = .error "Balance check unauthorized (401)." :=
      fun i => by simp [balanceAttempt, (h i).1, (h i).2]
    simp only [getUserBalanceRun]
    rw [withRetries_const_fail hatt balanceMaxAttempts (by decide) balanceRetryDelayMs]
    rfl
  · intro env h
    have hatt : ∀ i, balanceAttempt (env i) =
        .error ("Balance check request failed. status=" ++ toString (500 : Nat)) :=
      fun i => by simp [balanceAttempt, (h i).1, (h i).2]
    simp only [getUserBalanceRun]
    rw [withRetries_const_fail hatt balanceMaxAttempts (by decide) balanceRetryDelayMs]
    rfl

/-- A probe run answering 401 on every attempt. -/
def all401Env : Nat → BalanceAttemptEnv := fun _ => ⟨false, 401, ""⟩

/-- A probe run answering 500 on every attempt. -/
def all500Env : Nat → BalanceAttemptEnv := fun _ => ⟨false, 500, ""⟩

/-- Witness for C9 on the concrete 401 and 500 runs. -/
theorem getUserBalance_classification_witness :
    getUserBalanceRun all401Env = (.error unauthorizedFinalMessage, 3, [1000, 1000]) ∧
      getUserBalanceRun all500Env =
        (.error ("Balance check failed after retries: " ++
          ("Balance check request failed. status=" ++ toString (500 : Nat))), 3,
          [1000, 1000]) :=
  ⟨getUserBalance_classification.1 all401Env (fun _ => ⟨rfl, rfl⟩),
    getUserBalance_classification.2.1 all500Env (fun _ => ⟨rfl, rfl⟩)⟩

end LottoBot
